import Mathlib

/-!
Verification of `src/problems/4A_Watermelon/main.c`.

The program reads one integer `w` from standard input, evaluates
`can_divide(w) = (w > 2 && w % 2 == 0)`, and prints the string
constant "YES" or "NO" chosen by a `switch` over that boolean.

Modelling notes:
* C `int` values are embedded as `Int`; the 32-bit range shows up only
  as an explicit hypothesis where a claim mentions it.
* C's `%` on signed integers truncates toward zero, which is `Int.tmod`.
* The uninitialized `char* str_output` is modelled as an `Option String`
  that starts at `none` and is assigned by the `switch` cases.
* `scanf`'s unchecked return value is modelled by passing the parse
  result as an `Option Int` together with the indeterminate value the
  uninitialized `w` would hold on a parse failure.
-/

namespace Watermelon

/-- `bool can_divide(int w) { return w > 2 && w % 2 == 0; }`
(main.c lines 25-28). C's `%` truncates toward zero (`Int.tmod`);
`&&` is true exactly when both comparisons hold. -/
def can_divide (w : Int) : Bool :=
  decide (2 < w) && decide (Int.tmod w 2 = 0)

/-- The `switch (can_divide(w))` of `main` (main.c lines 11-20):
`str_output` starts unassigned (`none`); `case false` assigns "NO",
`case true` assigns "YES". -/
def switch_assign (b : Bool) : Option String :=
  match b with
  | false => some "NO"
  | true => some "YES"

/-- The text `printf(str_output)` writes when the input parsed to `w`:
the format string has no conversion specifiers and no newline, so the
assigned string is printed verbatim. The `.getD ""` default stands for
the read of `str_output` when no `case` assigned it, which is shown
unreachable below. -/
def run (w : Int) : String :=
  (switch_assign (can_divide w)).getD ""

/-- `main` (main.c lines 6-23) on a successfully parsed input `w`: the
full text written to standard output paired with the exit code. `main`
falls off its closing brace without a `return`, which in C yields exit
code 0. -/
def main_run (w : Int) : String × Int :=
  (run w, 0)

/-- `main` with the `scanf` step made explicit: `parsed` is the value
`scanf` stored when the token parsed as an integer, `junk` is the
indeterminate value the uninitialized `w` holds otherwise. `scanf`'s
return value is never checked (main.c line 9), so on a parse failure
execution continues with `w = junk`. -/
def main_scanf (parsed : Option Int) (junk : Int) : String :=
  match parsed with
  | some w => run w
  | none => run junk

/-- Smallest value of a 32-bit C `int`. -/
def INT_MIN : Int := -(2 ^ 31)

/-- Largest value of a 32-bit C `int`. -/
def INT_MAX : Int := 2 ^ 31 - 1

/-- C `%` on `int` with its undefined cases made explicit: division by
zero, and the one overflowing case `INT_MIN % -1`, give `none`. -/
def tmod_checked (a b : Int) : Option Int :=
  if b = 0 then none
  else if a = INT_MIN ∧ b = -1 then none
  else some (Int.tmod a b)

/-- `can_divide` with C's evaluation order and undefined behaviour made
explicit: `&&` short-circuits, so `w % 2` is evaluated only when
`w > 2` holds. -/
def can_divide_checked (w : Int) : Option Bool :=
  if 2 < w then (tmod_checked w 2).map (fun r => decide (r = 0))
  else some false

/-- Parity by truncated mod agrees with parity by Euclidean mod. -/
theorem tmod_two_eq_zero_iff (w : Int) : Int.tmod w 2 = 0 ↔ w % 2 = 0 := by
  rw [← Int.dvd_iff_tmod_eq_zero, Int.dvd_iff_emod_eq_zero]

/-- Characterization of the predicate. -/
theorem can_divide_eq_true_iff (w : Int) :
    can_divide w = true ↔ 2 < w ∧ w % 2 = 0 := by
  simp [can_divide, tmod_two_eq_zero_iff]

/-- The switch-then-print pipeline is a plain conditional. -/
theorem run_eq_ite (w : Int) :
    run w = if can_divide w then "YES" else "NO" := by
  unfold run switch_assign
  cases can_divide w <;> rfl

/-- The program prints "YES" exactly on even inputs above 2. -/
theorem run_yes_iff (w : Int) :
    run w = "YES" ↔ 2 < w ∧ w % 2 = 0 := by
  rw [run_eq_ite, ← can_divide_eq_true_iff w]
  cases h : can_divide w
  · simp [h]
  · simp [h]

/-- The program prints "NO" exactly when the predicate fails. -/
theorem run_no_iff (w : Int) :
    run w = "NO" ↔ ¬(2 < w ∧ w % 2 = 0) := by
  rw [run_eq_ite, ← can_divide_eq_true_iff w]
  cases h : can_divide w
  · simp [h]
  · simp [h]

/-- Claim C1: for every integer `w` read from standard input (when
parsing succeeds), the program prints "YES" if and only if `w > 2` and
`w mod 2 = 0`, and prints "NO" otherwise. -/
theorem c1_yes_iff_gt_two_and_even (w : Int) :
    (run w = "YES" ↔ 2 < w ∧ w % 2 = 0) ∧
    (run w = "NO" ↔ ¬(2 < w ∧ w % 2 = 0)) :=
  ⟨run_yes_iff w, run_no_iff w⟩

/-- Claim C2: the program prints "YES" if and only if `w` is the sum of
two positive even integers. -/
theorem c2_yes_iff_split_into_two_positive_even_parts (w : Int) :
    run w = "YES" ↔
      ∃ a b : Int, 0 < a ∧ 0 < b ∧ Even a ∧ Even b ∧ a + b = w := by
  rw [run_yes_iff]
  constructor
  · rintro ⟨hgt, hmod⟩
    obtain ⟨k, hk⟩ := Int.even_iff.mpr hmod
    exact ⟨2, w - 2, by omega, by omega, ⟨1, rfl⟩, ⟨k - 1, by omega⟩, by omega⟩
  · rintro ⟨a, b, ha, hb, ⟨i, hi⟩, ⟨j, hj⟩, hab⟩
    constructor
    · omega
    · omega

/-- Claim C3: for every `w ≤ 2` (regardless of parity), every negative
`w`, and every odd `w`, `can_divide` returns false and the program
prints "NO". -/
theorem c3_no_for_small_negative_or_odd (w : Int)
    (h : w ≤ 2 ∨ w < 0 ∨ Odd w) :
    can_divide w = false ∧ run w = "NO" := by
  have hnot : ¬(2 < w ∧ w % 2 = 0) := by
    rcases h with h | h | h
    · omega
    · omega
    · have := Int.odd_iff.mp h
      omega
  refine ⟨?_, (run_no_iff w).mpr hnot⟩
  cases hc : can_divide w
  · rfl
  · exact absurd ((can_divide_eq_true_iff w).mp hc) hnot

/-- Witness for C3 at the concrete input `w = 1`. -/
theorem c3_no_for_small_negative_or_odd_witness :
    can_divide 1 = false ∧ run 1 = "NO" :=
  c3_no_for_small_negative_or_odd 1 (Or.inl (by decide))

/-- Claim C4: the program prints "NO" for `w = 1, 2, 3`, "YES" for
`w = 4` and `w = 100`, and "NO" for `w = -4`. -/
theorem c4_concrete_outputs :
    run 1 = "NO" ∧ run 2 = "NO" ∧ run 3 = "NO" ∧
    run 4 = "YES" ∧ run 100 = "YES" ∧ run (-4) = "NO" :=
  ⟨rfl, rfl, rfl, rfl, rfl, rfl⟩

/-- Claim C5: for every successfully parsed integer input, the entire
standard-output text is exactly "YES" or exactly "NO" — no trailing
newline and no surrounding formatting. -/
theorem c5_output_is_yes_or_no (w : Int) :
    (main_run w).1 = "YES" ∨ (main_run w).1 = "NO" := by
  show run w = "YES" ∨ run w = "NO"
  rw [run_eq_ite]
  cases can_divide w
  · exact Or.inr rfl
  · exact Or.inl rfl

/-- Claim C6: the program is deterministic — two runs on the same input
value compute the same boolean and print the same string. -/
theorem c6_deterministic (w₁ w₂ : Int) (h : w₁ = w₂) :
    can_divide w₁ = can_divide w₂ ∧ run w₁ = run w₂ := by
  subst h
  exact ⟨rfl, rfl⟩

/-- Witness for C6 at the concrete input `w = 4` on both runs. -/
theorem c6_deterministic_witness :
    can_divide 4 = can_divide 4 ∧ run 4 = run 4 :=
  c6_deterministic 4 4 rfl

/-- Claim C7: for every successfully parsed integer input, the program
terminates with exit code 0; no path yields a non-zero exit code. -/
theorem c7_exit_code_zero (w : Int) : (main_run w).2 = 0 :=
  rfl

/-- Claim C8: when the input token does not parse as an integer, the
unchecked `scanf` leaves `w` indeterminate, that indeterminate value is
fed to the predicate, and no particular output is guaranteed: distinct
indeterminate values produce distinct outputs. -/
theorem c8_parse_failure_output_depends_on_junk :
    (∀ junk : Int, main_scanf none junk = run junk) ∧
    main_scanf none 3 ≠ main_scanf none 4 := by
  refine ⟨fun _ => rfl, ?_⟩
  decide

/-- Claim C9: the `switch` over the boolean covers both values, so
`str_output` is assigned on every path before `printf` reads it; the
uninitialized-pointer read is unreachable whenever the input parses. -/
theorem c9_switch_always_assigns :
    (∀ b : Bool, (switch_assign b).isSome = true) ∧
    (∀ w : Int, switch_assign (can_divide w) = some (run w)) := by
  refine ⟨fun b => by cases b <;> rfl, fun w => ?_⟩
  cases h : can_divide w
  · simp [run, h, switch_assign]
  · simp [run, h, switch_assign]

/-- Claim C10: over the whole signed 32-bit range, including `INT_MIN`
and `INT_MAX`, evaluating `can_divide` performs no undefined
arithmetic: `w > 2` short-circuits the conjunction and `w % 2` never
overflows, so the result is well defined and agrees with the model. -/
theorem c10_no_undefined_arithmetic (w : Int)
    (h1 : INT_MIN ≤ w) (h2 : w ≤ INT_MAX) :
    can_divide_checked w = some (can_divide w) := by
  unfold can_divide_checked can_divide tmod_checked
  by_cases hw : 2 < w
  · have h2ne : (2 : Int) ≠ 0 := by decide
    have hconj : ¬(w = INT_MIN ∧ (2 : Int) = -1) := by
      rintro ⟨-, h⟩
      exact absurd h (by decide)
    simp [hw, h2ne, hconj]
  · simp [hw]

/-- Witness for C10 at the concrete input `w = INT_MIN`. -/
theorem c10_no_undefined_arithmetic_witness :
    can_divide_checked INT_MIN = some (can_divide INT_MIN) :=
  c10_no_undefined_arithmetic INT_MIN (le_refl INT_MIN) (by decide)

end Watermelon
